import Mathlib

/-!
Shallow embedding of `source/blender/editors/asset/intern/asset_shelf_asset_view.cc`,
the grid-view widget of the asset shelf.  Host-provided services (asset list,
space-type registry, catalog service) are modelled as record fields holding the
results the host would return; nullable pointers become `Option`; a dereference
of a null pointer is modelled by the `none` result of a function returning
`Option`.
-/

/-- Opaque stand-in for a pointer to an in-memory datablock (`ID *`). -/
abbrev LocalID := Nat

/-- Catalog identifier (`bUUID` in the source). -/
abbrev CatalogID := Nat

/-- Catalog path string. -/
abbrev CatalogPath := String

/-- `AssetMetaData`: only `catalog_id` is read by this file. -/
structure AssetMetaData where
  catalog_id : CatalogID
  deriving DecidableEq

/-- `eAssetImportMethod` from `DNA_asset_types.h`. -/
inductive eAssetImportMethod where
  | ASSET_IMPORT_LINK
  | ASSET_IMPORT_APPEND
  | ASSET_IMPORT_APPEND_REUSE
  deriving DecidableEq

/-- An `AssetHandle`, modelled as the record of the results of the external
`ED_asset_handle_get_*` accessors used in this file: metadata, relative path in
the library, display name, preview icon id, optional local (in-memory) ID,
full library path on disk and optional import method. -/
structure AssetHandle where
  metadata : AssetMetaData
  relative_path : String
  name : String
  preview_icon_id : Int
  local_id : Option LocalID
  full_library_path : String
  import_method : Option eAssetImportMethod
  deriving DecidableEq

/-- `SpaceLink`: the per-space data; only the `spacetype` id is read. -/
structure SpaceLink where
  spacetype : Nat
  deriving DecidableEq

/-- The context (`bContext`).  `space_data` is the result of
`CTX_wm_space_data`, a nullable pointer. -/
structure bContext where
  space_data : Option SpaceLink

/-- `ASSET_SHELF_TYPE_NO_ASSET_DRAG` flag bit. -/
def ASSET_SHELF_TYPE_NO_ASSET_DRAG : Nat := 1

/-- `AssetShelfType`: a plugin-registered shelf type.  `poll` and `asset_poll`
are nullable callback pointers; `flag` is the flag bitfield.  The
`draw_context_menu` callback body is host plugin code with UI side effects and
is not modelled; `build_context_menu` below instead returns the sequence of
shelf types whose callback it invokes. -/
structure AssetShelfType where
  poll : Option (bContext → Bool)
  asset_poll : Option (AssetHandle → Bool)
  flag : Nat

/-- `SpaceType`: only the `asset_shelf_types` list is read by this file. -/
structure SpaceType where
  asset_shelf_types : List AssetShelfType

/-- `AssetCatalog`: only `path` and `catalog_id` are read. -/
structure AssetCatalog where
  path : CatalogPath
  catalog_id : CatalogID

/-- `asset_system::AssetCatalogFilter`, external: modelled by its `contains`
membership test on catalog ids. -/
structure AssetCatalogFilter where
  contains : CatalogID → Bool

/-- `asset_system::AssetCatalogService`, external: a catalog collection for
`find_catalog_by_path` plus the host `create_catalog_filter` constructor. -/
structure AssetCatalogService where
  catalogs : List AssetCatalog
  create_catalog_filter : CatalogID → AssetCatalogFilter

/-- External `AssetCatalogService::find_catalog_by_path`: the catalog with the
given path, if any. -/
def AssetCatalogService.find_catalog_by_path (service : AssetCatalogService)
    (path : CatalogPath) : Option AssetCatalog :=
  service.catalogs.find? (fun c => c.path == path)

/-- `asset_system::AssetLibrary`: only `catalog_service` is read. -/
structure AssetLibrary where
  catalog_service : AssetCatalogService

/-- `ASSETSHELF_SHOW_NAMES` display-flag bit. -/
def ASSETSHELF_SHOW_NAMES : Nat := 1

/-- `AssetShelfSettings`: nullable `active_catalog_path` string and the
`display_flag` bitfield. -/
structure AssetShelfSettings where
  active_catalog_path : Option CatalogPath
  display_flag : Nat

/-- Opaque stand-in for an `AssetLibraryReference`. -/
abbrev AssetLibraryReference := Nat

/-- The host application services used by this file:
`BKE_spacetype_from_id` (nullable result),
`ED_assetlist_library_get_once_available` (nullable result, the library may
not be loaded yet), and the asset sequence that `ED_assetlist_iterate`
produces for a library reference. -/
structure Host where
  spacetype_from_id : Nat → Option SpaceType
  assetlist_library_get_once_available : AssetLibraryReference → Option AssetLibrary
  assetlist_assets : AssetLibraryReference → List AssetHandle

/-- `asset_shelf_types_showing_asset` (lines 98 to 114 of the source),
translated literally: the loop skips a shelf type when
`!shelf_type->poll || !shelf_type->poll(&C, shelf_type)` holds, i.e. it keeps a
shelf type only when `poll` is non-null and returns true; it then appends the
shelf type when `asset_poll` is null or returns true. -/
def asset_shelf_types_showing_asset (space_type : SpaceType) (C : bContext)
    (asset : AssetHandle) : List AssetShelfType :=
  space_type.asset_shelf_types.filter (fun shelf_type =>
    (match shelf_type.poll with
      | none => false
      | some poll => poll C) &&
    (match shelf_type.asset_poll with
      | none => true
      | some ap => ap asset))

/-- `shelves_is_any_no_asset_drag` (lines 116 to 125). -/
def shelves_is_any_no_asset_drag (shelves : List AssetShelfType) : Bool :=
  shelves.any (fun shelf_type =>
    (shelf_type.flag &&& ASSET_SHELF_TYPE_NO_ASSET_DRAG) != 0)

/-- `AssetViewItem`: the grid item.  `identifier`, `label` and
`preview_icon_id` are the `ui::PreviewGridItem` base-class fields set by the
constructor; `asset_` and `allow_asset_drag_` are its own fields. -/
structure AssetViewItem where
  identifier : String
  label : String
  preview_icon_id : Int
  asset_ : AssetHandle
  allow_asset_drag_ : Bool

/-- The `AssetViewItem` constructor (lines 199 to 205); `allow_asset_drag_`
has in-class initializer `true`. -/
def AssetViewItem.make (asset : AssetHandle) (identifier : String) (label : String)
    (preview_icon_id : Int) : AssetViewItem :=
  { identifier := identifier, label := label, preview_icon_id := preview_icon_id,
    asset_ := asset, allow_asset_drag_ := true }

/-- `AssetViewItem::disable_asset_drag` (lines 207 to 210). -/
def AssetViewItem.disable_asset_drag (item : AssetViewItem) : AssetViewItem :=
  { item with allow_asset_drag_ := false }

/-- The `AssetView` state: the fields of the class (lines 36 to 53).
`catalog_filter_` has in-class initializer `std::nullopt`. -/
structure AssetView where
  library_ref_ : AssetLibraryReference
  shelf_settings_ : AssetShelfSettings
  catalog_filter_ : Option AssetCatalogFilter
  evil_C_ : bContext

/-- The `AssetView` constructor (lines 82 to 87). -/
def AssetView.make (library_ref : AssetLibraryReference)
    (shelf_settings : AssetShelfSettings) (evil_C : bContext) : AssetView :=
  { library_ref_ := library_ref, shelf_settings_ := shelf_settings,
    catalog_filter_ := none, evil_C_ := evil_C }

/-- The catalog skip test of `build_items` line 147:
`catalog_filter_ && !catalog_filter_->contains(asset_data->catalog_id)`. -/
def catalog_filter_skips (catalog_filter : Option AssetCatalogFilter)
    (asset_data : AssetMetaData) : Bool :=
  match catalog_filter with
  | some cf => !(cf.contains asset_data.catalog_id)
  | none => false

/-- The body of the `ED_assetlist_iterate` loop of `build_items`
(lines 137 to 167), iterated over the asset list.  `space_type` is the
nullable result of `BKE_spacetype_from_id`; it is dereferenced
(`*space_type`) for each iterated asset, so a null space type with a
non-empty asset list is a null dereference, modelled by the `none` result. -/
def build_items_loop (space_type : Option SpaceType) (C : bContext)
    (shelf_settings : AssetShelfSettings)
    (catalog_filter : Option AssetCatalogFilter) :
    List AssetHandle → List AssetViewItem → Option (List AssetViewItem)
  | [], items => some items
  | asset :: rest, items =>
    match space_type with
    | none => none
    | some st =>
      let shelves_showing_asset := asset_shelf_types_showing_asset st C asset
      if shelves_showing_asset.isEmpty then
        build_items_loop space_type C shelf_settings catalog_filter rest items
      else
        let asset_data := asset.metadata
        if catalog_filter_skips catalog_filter asset_data then
          build_items_loop space_type C shelf_settings catalog_filter rest items
        else
          let show_names := (shelf_settings.display_flag &&& ASSETSHELF_SHOW_NAMES) != 0
          let identifier := asset.relative_path
          let name := if show_names then asset.name else ""
          let preview_id := asset.preview_icon_id
          let item := AssetViewItem.make asset identifier name preview_id
          let item := if shelves_is_any_no_asset_drag shelves_showing_asset then
              item.disable_asset_drag
            else item
          build_items_loop space_type C shelf_settings catalog_filter rest
            (items ++ [item])

/-- `AssetView::build_items` (lines 127 to 168).  Returns the list of grid
items added, or `none` when a null pointer is dereferenced: the source checks
the library for null but dereferences `space_link` (line 135) and
`*space_type` (line 139, per asset) without a check. -/
def AssetView.build_items (host : Host) (view : AssetView) :
    Option (List AssetViewItem) :=
  match host.assetlist_library_get_once_available view.library_ref_ with
  | none => some []
  | some _library =>
    match view.evil_C_.space_data with
    | none => none
    | some space_link =>
      build_items_loop (host.spacetype_from_id space_link.spacetype) view.evil_C_
        view.shelf_settings_ view.catalog_filter_
        (host.assetlist_assets view.library_ref_) []

/-- `AssetView::set_catalog_filter` (lines 170 to 179). -/
def AssetView.set_catalog_filter (view : AssetView)
    (catalog_filter : Option AssetCatalogFilter) : AssetView :=
  match catalog_filter with
  | some cf => { view with catalog_filter_ := some cf }
  | none => { view with catalog_filter_ := none }

/-- `catalog_filter_from_shelf_settings` (lines 181 to 195). -/
def catalog_filter_from_shelf_settings (shelf_settings : Option AssetShelfSettings)
    (library : AssetLibrary) : Option AssetCatalogFilter :=
  match shelf_settings with
  | none => none
  | some settings =>
    match settings.active_catalog_path with
    | none => none
    | some path =>
      match library.catalog_service.find_catalog_by_path path with
      | none => none
      | some active_catalog =>
        some (library.catalog_service.create_catalog_filter active_catalog.catalog_id)

/-- `AssetViewItem::build_context_menu` (lines 228 to 238).  The result is the
sequence of shelf types whose `draw_context_menu` callback the loop invokes,
in invocation order; `none` models the null dereference that happens when
`CTX_wm_space_data` or `BKE_spacetype_from_id` returns null (`*space_type`,
line 233, with no check). -/
def AssetViewItem.build_context_menu (host : Host) (C : bContext)
    (item : AssetViewItem) : Option (List AssetShelfType) :=
  match C.space_data with
  | none => none
  | some space_link =>
    match host.spacetype_from_id space_link.spacetype with
    | none => none
    | some space_type =>
      some (asset_shelf_types_showing_asset space_type C item.asset_)

/-- `AssetDragController`: holds the asset being dragged. -/
structure AssetDragController where
  asset_ : AssetHandle

/-- `AssetViewItem::create_drag_controller` (lines 240 to 243). -/
def AssetViewItem.create_drag_controller (item : AssetViewItem) :
    Option AssetDragController :=
  if item.allow_asset_drag_ then some { asset_ := item.asset_ } else none

/-- `eWM_DragDataType`: the two drag types this file produces. -/
inductive eWM_DragDataType where
  | WM_DRAG_ID
  | WM_DRAG_ASSET
  deriving DecidableEq

/-- `AssetDragController::get_drag_type` (lines 285 to 289). -/
def AssetDragController.get_drag_type (controller : AssetDragController) :
    eWM_DragDataType :=
  match controller.asset_.local_id with
  | some _ => .WM_DRAG_ID
  | none => .WM_DRAG_ASSET

/-- The drag payload that `create_drag_data` hands to the drag system: either
the local ID pointer, or the `wmDragAsset` data built by
`WM_drag_create_asset_data` from the asset, its full library path and
the chosen ingestion method. -/
inductive DragData where
  | localId (id : LocalID)
  | assetData (asset : AssetHandle) (blend_path : String)
      (import_method : eAssetImportMethod)

/-- `AssetDragController::create_drag_data` (lines 291 to 306). -/
def AssetDragController.create_drag_data (controller : AssetDragController) :
    DragData :=
  match controller.asset_.local_id with
  | some local_id => .localId local_id
  | none =>
    let asset_blend_path := controller.asset_.full_library_path
    let import_method :=
      controller.asset_.import_method.getD .ASSET_IMPORT_APPEND_REUSE
    .assetData controller.asset_ asset_blend_path import_method

/-- Result of `build_asset_view`: either the early return when the library is
not yet available (nothing constructed or registered, layout and block
untouched), or the null dereference of a null `shelf_settings`
(`*shelf_settings`, line 265), or the `AssetView` registered on the block. -/
inductive BuildViewResult where
  | noLibrary
  | nullSettingsDeref
  | registered (view : AssetView)

/-- `build_asset_view` (lines 247 to 275).  Storage fetch, preview jobs, tile
size and the grid-view builder are external UI calls without modelled state;
the registered `AssetView` carries all state this file gives it. -/
def build_asset_view (host : Host) (library_ref : AssetLibraryReference)
    (shelf_settings : Option AssetShelfSettings) (C : bContext) :
    BuildViewResult :=
  match host.assetlist_library_get_once_available library_ref with
  | none => .noLibrary
  | some library =>
    match shelf_settings with
    | none => .nullSettingsDeref
    | some settings =>
      let asset_view := AssetView.make library_ref settings C
      let asset_view := asset_view.set_catalog_filter
        (catalog_filter_from_shelf_settings shelf_settings library)
      .registered asset_view

/-- The item that the loop body of `build_items` adds for a visible asset:
identifier is the relative path, label is the name when
`ASSETSHELF_SHOW_NAMES` is set, and dragging is disabled exactly when some
showing shelf type has `ASSET_SHELF_TYPE_NO_ASSET_DRAG`. -/
def built_item_for (st : SpaceType) (C : bContext)
    (shelf_settings : AssetShelfSettings) (asset : AssetHandle) : AssetViewItem :=
  { identifier := asset.relative_path,
    label := if (shelf_settings.display_flag &&& ASSETSHELF_SHOW_NAMES) != 0 then
        asset.name
      else "",
    preview_icon_id := asset.preview_icon_id,
    asset_ := asset,
    allow_asset_drag_ :=
      !shelves_is_any_no_asset_drag (asset_shelf_types_showing_asset st C asset) }

/-- The visibility test of `build_items` for one asset: some shelf type shows
it and the catalog filter does not skip it. -/
def asset_passes_filters (st : SpaceType) (C : bContext)
    (catalog_filter : Option AssetCatalogFilter) (asset : AssetHandle) : Bool :=
  !(asset_shelf_types_showing_asset st C asset).isEmpty &&
    !(catalog_filter_skips catalog_filter asset.metadata)

/-! Concrete instances used by witnesses and counterexamples. -/

/-- A shelf type whose `poll` always returns true and that has no
`asset_poll`; no flags set. -/
def shelfAlways : AssetShelfType :=
  { poll := some (fun _ => true), asset_poll := none, flag := 0 }

/-- A shelf type with no `poll` callback and no `asset_poll` callback. -/
def shelfNoPoll : AssetShelfType :=
  { poll := none, asset_poll := none, flag := 0 }

/-- A shelf type whose `poll` always returns true, with the
`ASSET_SHELF_TYPE_NO_ASSET_DRAG` flag set. -/
def shelfNoDrag : AssetShelfType :=
  { poll := some (fun _ => true), asset_poll := none,
    flag := ASSET_SHELF_TYPE_NO_ASSET_DRAG }

/-- A space type registering `shelfAlways`. -/
def spaceType0 : SpaceType := { asset_shelf_types := [shelfAlways] }

/-- A space link with space-type id 0. -/
def spaceLink0 : SpaceLink := { spacetype := 0 }

/-- A context whose space data is `spaceLink0`. -/
def ctx0 : bContext := { space_data := some spaceLink0 }

/-- A concrete asset in catalog 5 with no local ID. -/
def asset0 : AssetHandle :=
  { metadata := { catalog_id := 5 },
    relative_path := "things/a.blend/Object/a",
    name := "a",
    preview_icon_id := 1,
    local_id := none,
    full_library_path := "/lib/things/a.blend",
    import_method := none }

/-- A concrete library with one catalog at path "things" with id 5; its
filter constructor builds the equality filter on catalog ids. -/
def library0 : AssetLibrary :=
  { catalog_service :=
      { catalogs := [{ path := "things", catalog_id := 5 }],
        create_catalog_filter := fun cid => { contains := fun c => c == cid } } }

/-- A host where the library is available, space type 0 resolves to
`spaceType0` and the asset list holds `asset0`. -/
def host0 : Host :=
  { spacetype_from_id := fun _ => some spaceType0,
    assetlist_library_get_once_available := fun _ => some library0,
    assetlist_assets := fun _ => [asset0] }

/-- A host whose library is not yet available. -/
def hostNoLibrary : Host :=
  { spacetype_from_id := fun _ => some spaceType0,
    assetlist_library_get_once_available := fun _ => none,
    assetlist_assets := fun _ => [asset0] }

/-- A host where the library is available but `BKE_spacetype_from_id`
returns null for every id. -/
def hostNoSpaceType : Host :=
  { spacetype_from_id := fun _ => none,
    assetlist_library_get_once_available := fun _ => some library0,
    assetlist_assets := fun _ => [asset0] }

/-- Shelf settings with no active catalog path, names shown. -/
def settings0 : AssetShelfSettings :=
  { active_catalog_path := none, display_flag := ASSETSHELF_SHOW_NAMES }

/-- A view on `host0`'s library with `settings0`, no catalog filter, over
`ctx0`. -/
def view0 : AssetView :=
  { library_ref_ := 0, shelf_settings_ := settings0, catalog_filter_ := none,
    evil_C_ := ctx0 }

/-- A concrete grid item wrapping `asset0`, dragging allowed. -/
def item0 : AssetViewItem := AssetViewItem.make asset0 "things/a.blend/Object/a" "a" 1

/-! Helper lemmas. -/

/-- Characterization of the `build_items` loop when the space type is
non-null: it appends, in asset-list order, exactly one item per asset that
passes both filters, built by `built_item_for`. -/
lemma build_items_loop_some_eq (st : SpaceType) (C : bContext)
    (s : AssetShelfSettings) (f : Option AssetCatalogFilter)
    (assets : List AssetHandle) :
    ∀ acc, build_items_loop (some st) C s f assets acc =
      some (acc ++ (assets.filter (asset_passes_filters st C f)).map
        (built_item_for st C s)) := by
  induction assets with
  | nil => intro acc; simp [build_items_loop]
  | cons asset rest ih =>
    intro acc
    by_cases h1 : (asset_shelf_types_showing_asset st C asset).isEmpty = true
    · have hp : asset_passes_filters st C f asset = false := by
        simp [asset_passes_filters, h1]
      simp [build_items_loop, h1, ih, List.filter_cons, hp]
    · by_cases h2 : catalog_filter_skips f asset.metadata = true
      · have hp : asset_passes_filters st C f asset = false := by
          simp [asset_passes_filters, h2]
        simp [build_items_loop, h1, h2, ih, List.filter_cons, hp]
      · have hp : asset_passes_filters st C f asset = true := by
          simp [asset_passes_filters, h1, h2]
        by_cases h3 :
            shelves_is_any_no_asset_drag (asset_shelf_types_showing_asset st C asset) = true
        · simp [build_items_loop, h1, h2, h3, ih, List.filter_cons, hp,
            built_item_for, AssetViewItem.make, AssetViewItem.disable_asset_drag]
        · simp [build_items_loop, h1, h2, h3, ih, List.filter_cons, hp,
            built_item_for, AssetViewItem.make, AssetViewItem.disable_asset_drag]

/-- The `build_items` loop with a null space type crashes on the first asset
and returns the accumulator on an empty list. -/
lemma build_items_loop_none_eq (C : bContext) (s : AssetShelfSettings)
    (f : Option AssetCatalogFilter) (assets : List AssetHandle)
    (acc : List AssetViewItem) :
    build_items_loop none C s f assets acc =
      (if assets.isEmpty then some acc else none) := by
  cases assets <;> simp [build_items_loop]

/-! Claim theorems. -/

/-- Claim C1: in `AssetView.build_items`, for every asset iterated from the
asset list a grid item is added if and only if the set of shelf types showing
the asset is non-empty and the catalog filter, when present, contains the
catalog id of the asset; otherwise no item is added and iteration continues.
The items added are exactly those, one per passing asset, in iteration
order. -/
theorem build_items_adds_item_iff_visible (host : Host) (view : AssetView)
    (library : AssetLibrary) (space_link : SpaceLink) (st : SpaceType)
    (hlib : host.assetlist_library_get_once_available view.library_ref_ = some library)
    (hsd : view.evil_C_.space_data = some space_link)
    (hst : host.spacetype_from_id space_link.spacetype = some st) :
    AssetView.build_items host view =
      some (((host.assetlist_assets view.library_ref_).filter (fun asset =>
          !(asset_shelf_types_showing_asset st view.evil_C_ asset).isEmpty &&
          !(catalog_filter_skips view.catalog_filter_ asset.metadata))).map
        (built_item_for st view.evil_C_ view.shelf_settings_)) := by
  simp only [AssetView.build_items, hlib, hsd, hst]
  rw [build_items_loop_some_eq]
  rfl

/-- Claim C1 witness: the characterization evaluated at a concrete host,
library, space type and view. -/
theorem build_items_adds_item_iff_visible_witness :
    AssetView.build_items host0 view0 =
      some (((host0.assetlist_assets view0.library_ref_).filter (fun asset =>
          !(asset_shelf_types_showing_asset spaceType0 view0.evil_C_ asset).isEmpty &&
          !(catalog_filter_skips view0.catalog_filter_ asset.metadata))).map
        (built_item_for spaceType0 view0.evil_C_ view0.shelf_settings_)) :=
  build_items_adds_item_iff_visible host0 view0 library0 spaceLink0 spaceType0
    rfl rfl rfl

/-- Claim C2, the code evaluated at the failing input: a registered shelf
type with null `poll` and null `asset_poll` is NOT in the set computed by
`asset_shelf_types_showing_asset`, although the claim (and the doc comment of
the function itself) requires the set to contain every shelf type whose
optional callbacks are absent or accepting.  The loop condition
skips a shelf type whose `poll` is null instead of accepting it. -/
theorem showing_asset_drops_shelf_type_without_poll :
    shelfNoPoll.poll = none ∧ shelfNoPoll.asset_poll = none ∧
    asset_shelf_types_showing_asset { asset_shelf_types := [shelfNoPoll] } ctx0 asset0
      = [] :=
  ⟨rfl, rfl, rfl⟩

/-- Claim C3 counterexample: with the library available but
`BKE_spacetype_from_id` returning null, `AssetView.build_items` (iterating
one asset) and `AssetViewItem.build_context_menu` both reach the dereference
of the null space type, modelled by the `none` result; the claimed defensive
check on the space type does not exist in either. -/
theorem build_items_null_space_type_deref :
    AssetView.build_items hostNoSpaceType view0 = none ∧
    AssetViewItem.build_context_menu hostNoSpaceType ctx0 item0 = none :=
  ⟨rfl, rfl⟩

/-- Claim C3 amended: `build_items` null-checks only the library, and
`build_context_menu` checks nothing; both dereference the space link and the
space type without a check.  A null dereference is reachable in
`build_items` exactly when the library is available and either the space data
is null or the space type is null while the asset list is non-empty, and in
`build_context_menu` exactly when the space data or the space type is
null. -/
theorem build_items_null_deref_characterization (host : Host) (view : AssetView) :
    (AssetView.build_items host view = none ↔
      (host.assetlist_library_get_once_available view.library_ref_).isSome ∧
        (view.evil_C_.space_data = none ∨
          ∃ space_link, view.evil_C_.space_data = some space_link ∧
            host.spacetype_from_id space_link.spacetype = none ∧
            (host.assetlist_assets view.library_ref_).isEmpty = false)) ∧
    (∀ C item, AssetViewItem.build_context_menu host C item = none ↔
      (C.space_data = none ∨
        ∃ space_link, C.space_data = some space_link ∧
          host.spacetype_from_id space_link.spacetype = none)) := by
  constructor
  · cases hlib : host.assetlist_library_get_once_available view.library_ref_ with
    | none => simp [AssetView.build_items, hlib]
    | some library =>
      cases hsd : view.evil_C_.space_data with
      | none => simp [AssetView.build_items, hlib, hsd]
      | some space_link =>
        cases hst : host.spacetype_from_id space_link.spacetype with
        | none =>
          simp only [AssetView.build_items, hlib, hsd, hst]
          rw [build_items_loop_none_eq]
          cases ha : (host.assetlist_assets view.library_ref_).isEmpty <;>
            simp [ha, hst]
        | some st =>
          simp only [AssetView.build_items, hlib, hsd, hst]
          rw [build_items_loop_some_eq]
          simp [hst]
  · intro C item
    cases hsd : C.space_data with
    | none => simp [AssetViewItem.build_context_menu, hsd]
    | some space_link =>
      cases hst : host.spacetype_from_id space_link.spacetype with
      | none => simp [AssetViewItem.build_context_menu, hsd, hst]
      | some st => simp [AssetViewItem.build_context_menu, hsd, hst]

/-- Claim C4: `get_drag_type` returns `WM_DRAG_ID` exactly when the asset has
a local (in-memory) ID and `WM_DRAG_ASSET` otherwise, and `create_drag_data`
returns the local ID in the first case and the drag-asset payload built from
the full library path and the import method (defaulting to
`ASSET_IMPORT_APPEND_REUSE`) in the second; both branch on the same
condition. -/
theorem drag_type_and_data_agree_on_local_id (controller : AssetDragController) :
    (controller.get_drag_type = .WM_DRAG_ID ↔
      controller.asset_.local_id.isSome = true) ∧
    (controller.get_drag_type = .WM_DRAG_ASSET ↔
      controller.asset_.local_id = none) ∧
    controller.create_drag_data =
      (match controller.asset_.local_id with
        | some local_id => .localId local_id
        | none => .assetData controller.asset_ controller.asset_.full_library_path
            (controller.asset_.import_method.getD .ASSET_IMPORT_APPEND_REUSE)) := by
  cases h : controller.asset_.local_id <;>
    simp [AssetDragController.get_drag_type, AssetDragController.create_drag_data, h]

/-- Claim C5: `build_context_menu` invokes the `draw_context_menu` callback
of exactly the shelf types returned by `asset_shelf_types_showing_asset` for
the asset of the item, once each, in order; that list is a sublist of the
shelf-type list of the space type, so the invocation order is the
registration order. -/
theorem build_context_menu_invokes_exactly_showing (host : Host) (C : bContext)
    (item : AssetViewItem) (space_link : SpaceLink) (st : SpaceType)
    (hsd : C.space_data = some space_link)
    (hst : host.spacetype_from_id space_link.spacetype = some st) :
    AssetViewItem.build_context_menu host C item =
      some (asset_shelf_types_showing_asset st C item.asset_) ∧
    (asset_shelf_types_showing_asset st C item.asset_).Sublist
      st.asset_shelf_types := by
  constructor
  · simp [AssetViewItem.build_context_menu, hsd, hst]
  · exact List.filter_sublist st.asset_shelf_types

/-- Claim C5 witness: at a concrete host, context, item and space type. -/
theorem build_context_menu_invokes_exactly_showing_witness :
    AssetViewItem.build_context_menu host0 ctx0 item0 =
      some (asset_shelf_types_showing_asset spaceType0 ctx0 item0.asset_) ∧
    (asset_shelf_types_showing_asset spaceType0 ctx0 item0.asset_).Sublist
      spaceType0.asset_shelf_types :=
  build_context_menu_invokes_exactly_showing host0 ctx0 item0 spaceLink0 spaceType0
    rfl rfl

/-- Claim C6: when the library lookup returns null, `build_items` returns
without adding any item, and `build_asset_view` returns before constructing
or registering a grid view. -/
theorem no_library_builds_nothing (host : Host) (view : AssetView)
    (library_ref : AssetLibraryReference)
    (shelf_settings : Option AssetShelfSettings) (C : bContext)
    (h1 : host.assetlist_library_get_once_available view.library_ref_ = none)
    (h2 : host.assetlist_library_get_once_available library_ref = none) :
    AssetView.build_items host view = some [] ∧
    build_asset_view host library_ref shelf_settings C = .noLibrary := by
  constructor
  · simp [AssetView.build_items, h1]
  · simp [build_asset_view, h2]

/-- Claim C6 witness: at a host whose library is not yet available. -/
theorem no_library_builds_nothing_witness :
    AssetView.build_items hostNoLibrary view0 = some [] ∧
    build_asset_view hostNoLibrary 0 (some settings0) ctx0 = .noLibrary :=
  no_library_builds_nothing hostNoLibrary view0 0 (some settings0) ctx0 rfl rfl

/-- Claim C7: `catalog_filter_from_shelf_settings` returns no filter exactly
when the shelf settings are null, the active catalog path is unset, or no
catalog with that path exists in the library; and with no catalog filter the
catalog skip test of `build_items` rejects no asset, so every asset passes
the catalog condition. -/
theorem catalog_filter_none_iff_missing (shelf_settings : Option AssetShelfSettings)
    (library : AssetLibrary) :
    (catalog_filter_from_shelf_settings shelf_settings library = none ↔
      shelf_settings = none ∨
      (∃ settings, shelf_settings = some settings ∧
        settings.active_catalog_path = none) ∨
      (∃ settings path, shelf_settings = some settings ∧
        settings.active_catalog_path = some path ∧
        library.catalog_service.find_catalog_by_path path = none)) ∧
    (∀ asset_data, catalog_filter_skips none asset_data = false) := by
  constructor
  · cases shelf_settings with
    | none => simp [catalog_filter_from_shelf_settings]
    | some settings =>
      cases hp : settings.active_catalog_path with
      | none => simp [catalog_filter_from_shelf_settings, hp]
      | some path =>
        cases hf : library.catalog_service.find_catalog_by_path path with
        | none => simp [catalog_filter_from_shelf_settings, hp, hf]
        | some cat => simp [catalog_filter_from_shelf_settings, hp, hf]
  · intro asset_data
    rfl

/-- Claim C8: for every item created by `build_items`,
`create_drag_controller` returns no controller exactly when some shelf type
showing the asset at build time has the `ASSET_SHELF_TYPE_NO_ASSET_DRAG`
flag, and otherwise returns a drag controller holding that asset. -/
theorem create_drag_controller_none_iff_no_drag_flag (host : Host)
    (view : AssetView) (library : AssetLibrary) (space_link : SpaceLink)
    (st : SpaceType)
    (hlib : host.assetlist_library_get_once_available view.library_ref_ = some library)
    (hsd : view.evil_C_.space_data = some space_link)
    (hst : host.spacetype_from_id space_link.spacetype = some st) :
    ∃ items, AssetView.build_items host view = some items ∧
      ∀ item ∈ items,
        (AssetViewItem.create_drag_controller item = none ↔
          shelves_is_any_no_asset_drag
            (asset_shelf_types_showing_asset st view.evil_C_ item.asset_) = true) ∧
        (shelves_is_any_no_asset_drag
            (asset_shelf_types_showing_asset st view.evil_C_ item.asset_) = false →
          AssetViewItem.create_drag_controller item =
            some { asset_ := item.asset_ }) := by
  refine ⟨((host.assetlist_assets view.library_ref_).filter
      (asset_passes_filters st view.evil_C_ view.catalog_filter_)).map
      (built_item_for st view.evil_C_ view.shelf_settings_), ?_, ?_⟩
  · simp only [AssetView.build_items, hlib, hsd, hst]
    rw [build_items_loop_some_eq]
    rfl
  · intro item hitem
    rw [List.mem_map] at hitem
    obtain ⟨a, _, rfl⟩ := hitem
    cases h : shelves_is_any_no_asset_drag
        (asset_shelf_types_showing_asset st view.evil_C_ a) <;>
      simp [AssetViewItem.create_drag_controller, built_item_for, h]

/-- Claim C8 witness: at a concrete host and view. -/
theorem create_drag_controller_none_iff_no_drag_flag_witness :
    ∃ items, AssetView.build_items host0 view0 = some items ∧
      ∀ item ∈ items,
        (AssetViewItem.create_drag_controller item = none ↔
          shelves_is_any_no_asset_drag
            (asset_shelf_types_showing_asset spaceType0 view0.evil_C_ item.asset_)
            = true) ∧
        (shelves_is_any_no_asset_drag
            (asset_shelf_types_showing_asset spaceType0 view0.evil_C_ item.asset_)
            = false →
          AssetViewItem.create_drag_controller item =
            some { asset_ := item.asset_ }) :=
  create_drag_controller_none_iff_no_drag_flag host0 view0 library0 spaceLink0
    spaceType0 rfl rfl rfl

/-- Claim C9: every item added by `build_items` has the relative path of its
asset within the library as identifier, and as label the asset name when the
`ASSETSHELF_SHOW_NAMES` display flag is set and the empty string
otherwise. -/
theorem item_identifier_is_path_label_is_name (host : Host) (view : AssetView)
    (library : AssetLibrary) (space_link : SpaceLink) (st : SpaceType)
    (hlib : host.assetlist_library_get_once_available view.library_ref_ = some library)
    (hsd : view.evil_C_.space_data = some space_link)
    (hst : host.spacetype_from_id space_link.spacetype = some st) :
    ∃ items, AssetView.build_items host view = some items ∧
      ∀ item ∈ items,
        item.identifier = item.asset_.relative_path ∧
        item.label =
          (if (view.shelf_settings_.display_flag &&& ASSETSHELF_SHOW_NAMES) != 0
            then item.asset_.name else "") := by
  refine ⟨((host.assetlist_assets view.library_ref_).filter
      (asset_passes_filters st view.evil_C_ view.catalog_filter_)).map
      (built_item_for st view.evil_C_ view.shelf_settings_), ?_, ?_⟩
  · simp only [AssetView.build_items, hlib, hsd, hst]
    rw [build_items_loop_some_eq]
    rfl
  · intro item hitem
    rw [List.mem_map] at hitem
    obtain ⟨a, _, rfl⟩ := hitem
    simp [built_item_for]

/-- Claim C9 witness: at a concrete host and view. -/
theorem item_identifier_is_path_label_is_name_witness :
    ∃ items, AssetView.build_items host0 view0 = some items ∧
      ∀ item ∈ items,
        item.identifier = item.asset_.relative_path ∧
        item.label =
          (if (view0.shelf_settings_.display_flag &&& ASSETSHELF_SHOW_NAMES) != 0
            then item.asset_.name else "") :=
  item_identifier_is_path_label_is_name host0 view0 library0 spaceLink0 spaceType0
    rfl rfl rfl

/-- Claim C10: `set_catalog_filter` sets the catalog filter state of the view
to exactly its argument, whatever the prior state, and leaves the library
reference, the shelf settings and the stored context unchanged. -/
theorem set_catalog_filter_sets_exactly_argument (view : AssetView)
    (catalog_filter : Option AssetCatalogFilter) :
    (view.set_catalog_filter catalog_filter).catalog_filter_ = catalog_filter ∧
    (view.set_catalog_filter catalog_filter).library_ref_ = view.library_ref_ ∧
    (view.set_catalog_filter catalog_filter).shelf_settings_ = view.shelf_settings_ ∧
    (view.set_catalog_filter catalog_filter).evil_C_ = view.evil_C_ := by
  cases catalog_filter <;> simp [AssetView.set_catalog_filter]
